import Mathlib

/-!
Verification of the retrieval-augmented chat pipeline in `rag_rpg.py`.

The program is a single-session chat front-end: it keeps a conversation
handle and an append-only chat history in session state, retrieves context
from a vector store, builds a grounded prompt, and calls a generation
endpoint, converting generation failures into a visible error answer.

We embed the pure string operations (`search_vector_store`, `build_prompt`)
directly, and the stateful turn pipeline of `main` as explicit state
passing over a `Session` record, with the two fallible upstream calls
(vector-store search, generation) supplied as `Except`-valued inputs.
-/

namespace RagRpg

/-- The ASCII whitespace characters removed by Python's `str.strip()`
(space, tab, newline, carriage return, vertical tab, form feed). -/
def isPySpace (c : Char) : Bool :=
  c = ' ' || c = '\t' || c = '\n' || c = '\x0d' || c = '\x0b' || c = '\x0c'

/-- Python's `str.strip()`: remove leading and trailing whitespace. -/
def pyStrip (s : String) : String :=
  String.mk (((s.data.dropWhile isPySpace).reverse.dropWhile isPySpace).reverse)

/-- The loop of `search_vector_store` (rag_rpg.py lines 63-68): strip each
match's document text and keep it only when non-empty, in order. -/
def collectParts : List String → List String
  | [] => []
  | m :: rest =>
    let doc_text := pyStrip m
    if doc_text = "" then collectParts rest else doc_text :: collectParts rest

/-- Function `search_vector_store` (rag_rpg.py lines 42-69), as a function of the
ordered list of match document texts returned by the upstream search:
collect the stripped non-empty documents and join them with `"\n\n"`. -/
def search_vector_store (ms : List String) : String :=
  String.intercalate "\n\n" (collectParts ms)

/-- The fixed safety instruction of `build_prompt` (rag_rpg.py lines 85-89),
with the three Python string literals concatenated as in the source. -/
def instructions : String :=
  "Você é um assistente que responde apenas com base no contexto fornecido."
    ++ " Se o contexto não contiver informações relevantes para a pergunta,"
    ++ " responda que não sabe ou que não pode ajudar. Não invente fatos."

/-- Function `build_prompt` (rag_rpg.py lines 72-91): the f-string
`"Instruções: \x7binstructions\x7d\n\nContexto:\n\x7bcontext\x7d\n\nPergunta: \x7bquestion\x7d\n\nResposta:"`. -/
def build_prompt (context : String) (question : String) : String :=
  "Instruções: " ++ instructions ++ "\n\nContexto:\n" ++ context
    ++ "\n\nPergunta: " ++ question ++ "\n\nResposta:"

/-- The constant instruction block at the head of every prompt:
the `"Instruções: "` label plus the fixed instruction text. -/
def instructionBlock : String := "Instruções: " ++ instructions

/-- One chat-history entry, the dict `{"role": ..., "content": ...}`
appended at rag_rpg.py lines 134 and 160. -/
structure Turn where
  role : String
  content : String
  deriving DecidableEq, Repr

/-- The per-session state kept in `st.session_state` plus the two sidebar
configuration values of `main` (rag_rpg.py lines 100-119): the API key,
the vector-store id, the conversation handle (absent until created), and
the chat history. Conversation handles are modelled as naturals issued by
the upstream service. -/
structure Session where
  api_key : String
  vector_store_id : String
  conversation_id : Option Nat
  chat_history : List Turn
  deriving DecidableEq, Repr

/-- The upstream conversation service, modelled as a fresh-handle counter
together with counts of its create and delete calls. -/
structure Upstream where
  nextConvId : Nat
  createCalls : Nat
  deleteCalls : Nat
  deriving DecidableEq, Repr

/-- Function `create_conversation` (rag_rpg.py lines 36-39): one upstream call that
returns a fresh conversation handle. -/
def create_conversation (u : Upstream) : Nat × Upstream :=
  (u.nextConvId,
   { nextConvId := u.nextConvId + 1
     createCalls := u.createCalls + 1
     deleteCalls := u.deleteCalls })

/-- The conversation guard of `main` (rag_rpg.py lines 116-119): if the
session has no conversation handle, create one upstream, store it and
initialise the chat history; otherwise leave session and upstream alone. -/
def ensure_conversation (s : Session) (u : Upstream) : Session × Upstream :=
  match s.conversation_id with
  | none =>
      let r := create_conversation u
      ({ s with conversation_id := some r.1, chat_history := [] }, r.2)
  | some _ => (s, u)

/-- The same guard with the upstream create call allowed to fail: a failure
of `client.conversations.create()` is uncaught in `main`, so it propagates. -/
def ensure_conversation_f (s : Session) (createResult : Except String Nat) :
    Except String Session :=
  match s.conversation_id with
  | none =>
      match createResult with
      | .error e => .error e
      | .ok cid => .ok { s with conversation_id := some cid, chat_history := [] }
  | some _ => .ok s

/-- The try/except around the generation call (rag_rpg.py lines 149-157):
on success the answer is the stripped output text, on any exception the
answer is the error message rendered after the marker. -/
def answer_of (genResult : Except String String) : String :=
  match genResult with
  | .ok output_text => pyStrip output_text
  | .error e => "Erro ao chamar a API: " ++ e

/-- One user turn of `main` (rag_rpg.py lines 132-161): append the user
entry, then run the vector-store search (fallible and unguarded — its
failure aborts the turn), build the prompt, run the guarded generation
call, and append the assistant entry. Returns the session as left by the
turn together with `.ok ()` for a completed turn or the propagated search
error. -/
def run_turn (s : Session) (question : String)
    (searchResult : Except String (List String))
    (gen : String → Except String String) : Session × Except String Unit :=
  let s1 := { s with
    chat_history := s.chat_history ++ [{ role := "user", content := question }] }
  match searchResult with
  | .error e => (s1, .error e)
  | .ok docs =>
      let context := search_vector_store docs
      let prompt := build_prompt context question
      let answer := answer_of (gen prompt)
      ({ s1 with
          chat_history := s1.chat_history
            ++ [{ role := "assistant", content := answer }] },
       .ok ())

/-- The inputs of one completed turn: the question, the documents the
search returned, and the generation outcome. -/
structure TurnInput where
  question : String
  docs : List String
  genResult : Except String String
  deriving Repr

/-- Run one completed turn (search succeeded; generation may have failed,
which still completes the turn with an error answer). -/
def run_completed_turn (s : Session) (t : TurnInput) : Session :=
  (run_turn s t.question (.ok t.docs) (fun _ => t.genResult)).1

/-- Run a sequence of completed turns in order. -/
def run_turns (s : Session) : List TurnInput → Session
  | [] => s
  | t :: ts => run_turns (run_completed_turn s t) ts

/-- The two history entries a completed turn appends. -/
def turnEntries (t : TurnInput) : List Turn :=
  [{ role := "user", content := t.question },
   { role := "assistant", content := answer_of t.genResult }]

/-- The chat history produced by a sequence of completed turns. -/
def historyOfTurns : List TurnInput → List Turn
  | [] => []
  | t :: ts => turnEntries t ++ historyOfTurns ts

/-- Modelled from the spec: the explicit "new conversation" reset control
(spec sections 4.1, 4.5 and 6) is not present in `src/rag_rpg.py`; per the
spec it clears the stored conversation handle and the history sequence and
calls no upstream deletion API, so the upstream state is returned
untouched. -/
def reset_session (s : Session) (u : Upstream) : Session × Upstream :=
  ({ s with conversation_id := none, chat_history := [] }, u)

theorem string_append_assoc (a b c : String) : a ++ b ++ c = a ++ (b ++ c) := by
  cases a with
  | mk da =>
    cases b with
    | mk db =>
      cases c with
      | mk dc =>
        show String.mk (da ++ db ++ dc) = String.mk (da ++ (db ++ dc))
        rw [List.append_assoc]

theorem collectParts_eq_filter (ms : List String) :
    collectParts ms = (ms.map pyStrip).filter (fun s => decide (s ≠ "")) := by
  induction ms with
  | nil => rfl
  | cons m rest ih =>
    simp only [collectParts, List.map_cons, List.filter_cons]
    by_cases h : pyStrip m = ""
    · simp [h, ih]
    · simp [h, ih]

/-- Claim C1: for every list of retrieval matched documents,
`search_vector_store` returns the document texts stripped of surrounding
whitespace, in the original order, with entries empty after stripping
removed, joined by `"\n\n"`; in particular `["  foo  ", "", "bar"]` yields
`"foo\n\nbar"`, and the result is empty when there are no matched
documents or all strip to empty. -/
theorem search_vector_store_spec :
    (∀ ms : List String,
        search_vector_store ms
          = String.intercalate "\n\n"
              ((ms.map pyStrip).filter (fun s => decide (s ≠ "")))) ∧
    search_vector_store ["  foo  ", "", "bar"] = "foo\n\nbar" ∧
    search_vector_store [] = "" ∧
    (∀ ms : List String, (∀ m ∈ ms, pyStrip m = "") →
        search_vector_store ms = "") := by
  refine ⟨?_, by decide, rfl, ?_⟩
  · intro ms
    unfold search_vector_store
    rw [collectParts_eq_filter]
  · intro ms hall
    unfold search_vector_store
    have hnil : collectParts ms = [] := by
      induction ms with
      | nil => rfl
      | cons m rest ih =>
        simp only [collectParts]
        rw [hall m (List.mem_cons_self m rest)]
        simp only [if_pos rfl]
        exact ih (fun x hx => hall x (List.mem_cons_of_mem m hx))
    rw [hnil]
    rfl

/-- Witness for C1 at a concrete all-empty match list. -/
theorem search_vector_store_spec_witness :
    search_vector_store ["   ", ""] = "" :=
  search_vector_store_spec.2.2.2 ["   ", ""] (by decide)

/-- Claim C3: `build_prompt context question` is the concatenation, in
fixed order, of the instruction block, a blank line, the `"Contexto:"`
label, the literal context, a blank line, the `"Pergunta:"` label, the
literal question, a blank line, and the trailing `"Resposta:"` label;
consequently every output contains the fixed instruction text, the context
and the question, in that order, each verbatim. -/
theorem build_prompt_structure (context : String) (question : String) :
    build_prompt context question
      = instructionBlock ++ "\n\n" ++ "Contexto:" ++ ("\n" ++ context)
          ++ "\n\n" ++ "Pergunta:" ++ (" " ++ question) ++ "\n\n" ++ "Resposta:" ∧
    ∃ before mid1 mid2 tail, build_prompt context question
      = before ++ instructions ++ mid1 ++ context ++ mid2 ++ question ++ tail := by
  constructor
  · simp only [build_prompt, instructionBlock, string_append_assoc]
    rfl
  · refine ⟨"Instruções: ", "\n\nContexto:\n", "\n\nPergunta: ", "\n\nResposta:", ?_⟩
    simp only [build_prompt, string_append_assoc]

/-- Claim C8: `build_prompt` is deterministic — identical inputs give the
identical output string — and the instruction-block portion of the output
is the same constant string for all inputs: every output is the constant
`instructionBlock` followed by a fixed template in which only the context
and question substrings vary. -/
theorem build_prompt_deterministic :
    (∀ c q c2 q2, c = c2 → q = q2 → build_prompt c q = build_prompt c2 q2) ∧
    (∀ c q, ∃ rest, build_prompt c q = instructionBlock ++ rest ∧
        rest = "\n\nContexto:\n" ++ c ++ "\n\nPergunta: " ++ q ++ "\n\nResposta:") := by
  constructor
  · intro c q c2 q2 hc hq
    rw [hc, hq]
  · intro c q
    refine ⟨"\n\nContexto:\n" ++ c ++ "\n\nPergunta: " ++ q ++ "\n\nResposta:", ?_, rfl⟩
    simp only [build_prompt, instructionBlock, string_append_assoc]

/-- Witness for C8 at concrete equal inputs. -/
theorem build_prompt_deterministic_witness :
    build_prompt "ctx" "q" = build_prompt "ctx" "q" :=
  build_prompt_deterministic.1 "ctx" "q" "ctx" "q" rfl rfl

/-- Claim C2: in a user turn whose search succeeded, a successful
generation call appends an assistant entry whose content is the response's
output text stripped of surrounding whitespace, while a failed generation
call is not propagated: the assistant entry's content is the marker
`"Erro ao chamar a API: "` followed by the error's description, and in
both cases the turn completes so the session loop continues. -/
theorem generation_answer_spec (s : Session) (q : String) (docs : List String)
    (gen : String → Except String String) :
    (∀ out, gen (build_prompt (search_vector_store docs) q) = .ok out →
        (run_turn s q (.ok docs) gen).1.chat_history
          = s.chat_history ++ [{ role := "user", content := q },
              { role := "assistant", content := pyStrip out }]) ∧
    (∀ e, gen (build_prompt (search_vector_store docs) q) = .error e →
        (run_turn s q (.ok docs) gen).1.chat_history
          = s.chat_history ++ [{ role := "user", content := q },
              { role := "assistant", content := "Erro ao chamar a API: " ++ e }]) ∧
    (run_turn s q (.ok docs) gen).2 = .ok () := by
  refine ⟨?_, ?_, rfl⟩
  · intro out hout
    simp [run_turn, answer_of, hout]
  · intro e herr
    simp [run_turn, answer_of, herr]

/-- Witness for C2: a concrete failed generation call yields the
marker-carrying assistant entry. -/
theorem generation_answer_spec_witness :
    (run_turn { api_key := "k", vector_store_id := "v",
                conversation_id := some 0, chat_history := [] }
        "q" (.ok []) (fun _ => .error "boom")).1.chat_history
      = [{ role := "user", content := "q" },
         { role := "assistant", content := "Erro ao chamar a API: " ++ "boom" }] :=
  (generation_answer_spec
      { api_key := "k", vector_store_id := "v",
        conversation_id := some 0, chat_history := [] }
      "q" [] (fun _ => .error "boom")).2.1 "boom" rfl

/-- Claim C6: if the session holds no conversation handle, the guard makes
exactly one upstream create call and stores the fresh handle; if a handle
exists, session and upstream are returned unchanged (no upstream call);
after the guard the session always holds exactly one handle. -/
theorem ensure_conversation_spec (s : Session) (u : Upstream) :
    (s.conversation_id = none →
        (ensure_conversation s u).1.conversation_id = some u.nextConvId ∧
        (ensure_conversation s u).2.createCalls = u.createCalls + 1) ∧
    (∀ h, s.conversation_id = some h → ensure_conversation s u = (s, u)) ∧
    (∃ h, (ensure_conversation s u).1.conversation_id = some h) := by
  refine ⟨?_, ?_, ?_⟩
  · intro hnone
    simp [ensure_conversation, create_conversation, hnone]
  · intro h hsome
    simp [ensure_conversation, hsome]
  · cases hc : s.conversation_id with
    | none => exact ⟨u.nextConvId, by simp [ensure_conversation, create_conversation, hc]⟩
    | some h => exact ⟨h, by simp [ensure_conversation, hc]⟩

/-- Witness for C6 on a fresh session. -/
theorem ensure_conversation_spec_witness :
    (ensure_conversation
        { api_key := "k", vector_store_id := "v",
          conversation_id := none, chat_history := [] }
        { nextConvId := 7, createCalls := 0, deleteCalls := 0 }).1.conversation_id
      = some 7 :=
  ((ensure_conversation_spec
      { api_key := "k", vector_store_id := "v",
        conversation_id := none, chat_history := [] }
      { nextConvId := 7, createCalls := 0, deleteCalls := 0 }).1 rfl).1

/-- Claim C7: only the generation call is guarded — a search failure
propagates out of the turn unchanged (no local handling), a conversation
creation failure propagates out of the guard unchanged, and a generation
failure does not fail the turn. -/
theorem only_generation_guarded (s : Session) (q : String) (e : String)
    (gen : String → Except String String) (docs : List String) :
    (run_turn s q (.error e) gen).2 = .error e ∧
    (s.conversation_id = none → ensure_conversation_f s (.error e) = .error e) ∧
    (gen (build_prompt (search_vector_store docs) q) = .error e →
        (run_turn s q (.ok docs) gen).2 = .ok ()) := by
  refine ⟨rfl, ?_, fun _ => rfl⟩
  intro hnone
  simp [ensure_conversation_f, hnone]

/-- Witness for C7: concrete search and create failures propagate, a
concrete generation failure does not. -/
theorem only_generation_guarded_witness :
    ensure_conversation_f
        { api_key := "k", vector_store_id := "v",
          conversation_id := none, chat_history := [] }
        (.error "down")
      = .error "down" :=
  (only_generation_guarded
      { api_key := "k", vector_store_id := "v",
        conversation_id := none, chat_history := [] }
      "q" "down" (fun _ => .error "down") []).2.1 rfl

/-- Claim C9: the user entry is appended before the search runs, so a turn
whose search raises leaves the history with a trailing unpaired user entry
and the propagated error; a history of even length 2N becomes odd length
2N + 1. -/
theorem search_failure_unpaired (s : Session) (q : String) (e : String)
    (gen : String → Except String String) :
    run_turn s q (.error e) gen
      = ({ s with chat_history := s.chat_history
              ++ [{ role := "user", content := q }] }, .error e) ∧
    (∀ n, s.chat_history.length = 2 * n →
        (run_turn s q (.error e) gen).1.chat_history.length = 2 * n + 1) := by
  refine ⟨rfl, ?_⟩
  intro n hn
  simp [run_turn, hn]

/-- Witness for C9 on an empty history. -/
theorem search_failure_unpaired_witness :
    (run_turn { api_key := "k", vector_store_id := "v",
                conversation_id := some 0, chat_history := [] }
        "q" (.error "down") (fun _ => .ok "a")).1.chat_history.length
      = 2 * 0 + 1 :=
  (search_failure_unpaired
      { api_key := "k", vector_store_id := "v",
        conversation_id := some 0, chat_history := [] }
      "q" "down" (fun _ => .ok "a")).2 0 rfl

/-- Claim C10: when the generation call fails, the error branch's only
state change is appending the synthesized error assistant entry: the API
key, the vector-store id, the conversation handle, all previously appended
history entries and this turn's user entry are unchanged. -/
theorem generation_failure_frame (s : Session) (q : String)
    (docs : List String) (gen : String → Except String String) (e : String)
    (hgen : gen (build_prompt (search_vector_store docs) q) = .error e) :
    (run_turn s q (.ok docs) gen).1.api_key = s.api_key ∧
    (run_turn s q (.ok docs) gen).1.vector_store_id = s.vector_store_id ∧
    (run_turn s q (.ok docs) gen).1.conversation_id = s.conversation_id ∧
    (run_turn s q (.ok docs) gen).1.chat_history
      = (s.chat_history ++ [{ role := "user", content := q }])
          ++ [{ role := "assistant", content := "Erro ao chamar a API: " ++ e }] := by
  refine ⟨rfl, rfl, rfl, ?_⟩
  simp [run_turn, answer_of, hgen]

/-- Witness for C10 at a concrete failing generation call. -/
theorem generation_failure_frame_witness :
    (run_turn { api_key := "k", vector_store_id := "v",
                conversation_id := some 3, chat_history := [] }
        "q" (.ok ["d"]) (fun _ => .error "boom")).1.conversation_id
      = some 3 :=
  (generation_failure_frame
      { api_key := "k", vector_store_id := "v",
        conversation_id := some 3, chat_history := [] }
      "q" ["d"] (fun _ => .error "boom") "boom" rfl).2.2.1

theorem run_completed_turn_history (s : Session) (t : TurnInput) :
    (run_completed_turn s t).chat_history = s.chat_history ++ turnEntries t := by
  simp [run_completed_turn, run_turn, turnEntries]

theorem run_turns_history (ts : List TurnInput) (s : Session) :
    (run_turns s ts).chat_history = s.chat_history ++ historyOfTurns ts := by
  induction ts generalizing s with
  | nil => simp [run_turns, historyOfTurns]
  | cons t ts ih =>
    simp only [run_turns, historyOfTurns]
    rw [ih, run_completed_turn_history, List.append_assoc]

theorem run_turns_append (s : Session) (ts ts2 : List TurnInput) :
    run_turns s (ts ++ ts2) = run_turns (run_turns s ts) ts2 := by
  induction ts generalizing s with
  | nil => rfl
  | cons t ts ih =>
    simp only [List.cons_append, run_turns]
    exact ih _

theorem historyOfTurns_length (ts : List TurnInput) :
    (historyOfTurns ts).length = 2 * ts.length := by
  induction ts with
  | nil => rfl
  | cons t ts ih =>
    simp only [historyOfTurns, turnEntries, List.length_append, List.length_cons,
      List.length_nil, ih]
    omega

theorem historyOfTurns_get (ts : List TurnInput) (i : Nat) (hi : i < ts.length) :
    (historyOfTurns ts).get? (2 * i)
      = some { role := "user", content := (ts.get ⟨i, hi⟩).question } ∧
    (historyOfTurns ts).get? (2 * i + 1)
      = some { role := "assistant", content := answer_of (ts.get ⟨i, hi⟩).genResult } := by
  induction ts generalizing i with
  | nil => exact absurd hi (Nat.not_lt_zero i)
  | cons t ts ih =>
    cases i with
    | zero => simp [historyOfTurns, turnEntries]
    | succ j =>
      have h2 : 2 * (j + 1) = 2 * j + 1 + 1 := by omega
      have hj : j < ts.length := Nat.lt_of_succ_lt_succ hi
      have := ih j hj
      simp only [historyOfTurns, turnEntries, List.cons_append, List.nil_append, h2,
        List.get?_cons_succ, List.get_cons_succ]
      exact this

/-- Claim C4: starting from a fresh session, after N completed turns the
chat history has length exactly 2N and consists of alternating pairs —
the entry at index 2i is turn i's user entry and the entry at 2i + 1 is
turn i's assistant entry, in chronological append order — and running
further turns only extends the history, so no entry is mutated or removed
once appended. -/
theorem history_pairing (ak : String) (vs : String) (cid : Nat)
    (ts ts2 : List TurnInput) :
    (run_turns ⟨ak, vs, some cid, []⟩ ts).chat_history.length = 2 * ts.length ∧
    (∀ i (hi : i < ts.length),
        (run_turns ⟨ak, vs, some cid, []⟩ ts).chat_history.get? (2 * i)
          = some { role := "user", content := (ts.get ⟨i, hi⟩).question } ∧
        (run_turns ⟨ak, vs, some cid, []⟩ ts).chat_history.get? (2 * i + 1)
          = some { role := "assistant",
                   content := answer_of (ts.get ⟨i, hi⟩).genResult }) ∧
    (∃ ext, (run_turns ⟨ak, vs, some cid, []⟩ (ts ++ ts2)).chat_history
        = (run_turns ⟨ak, vs, some cid, []⟩ ts).chat_history ++ ext) := by
  have hbase : (run_turns ⟨ak, vs, some cid, []⟩ ts).chat_history = historyOfTurns ts := by
    rw [run_turns_history]
    rfl
  refine ⟨?_, ?_, ?_⟩
  · rw [hbase, historyOfTurns_length]
  · intro i hi
    rw [hbase]
    exact historyOfTurns_get ts i hi
  · refine ⟨historyOfTurns ts2, ?_⟩
    rw [run_turns_append, run_turns_history]

/-- Witness for C4 on one concrete completed turn. -/
theorem history_pairing_witness :
    (run_turns ⟨"k", "v", some 0, []⟩ [⟨"q", ["d"], .ok " a "⟩]).chat_history.get? 0
      = some { role := "user", content := "q" } := by
  have h := ((history_pairing "k" "v" 0 [⟨"q", ["d"], .ok " a "⟩] []).2.1 0
    (by decide)).1
  simpa using h

/-- Claim C5 (the reset control is absent from `src/rag_rpg.py` and is
modelled from the spec): resetting a session clears both the stored
conversation handle and the history, makes no upstream call (the upstream
state, its delete-call count included, is untouched), and the next turn's
conversation guard creates a brand-new handle distinct from every handle
the session held before. -/
theorem reset_session_spec (s : Session) (u : Upstream) (priorHandles : List Nat)
    (hfresh : ∀ h ∈ priorHandles, h < u.nextConvId) :
    (reset_session s u).1.conversation_id = none ∧
    (reset_session s u).1.chat_history = [] ∧
    (reset_session s u).2 = u ∧
    (ensure_conversation (reset_session s u).1 u).1.conversation_id
      = some u.nextConvId ∧
    u.nextConvId ∉ priorHandles := by
  refine ⟨rfl, rfl, rfl, ?_, ?_⟩
  · simp [reset_session, ensure_conversation, create_conversation]
  · intro hmem
    exact absurd (hfresh u.nextConvId hmem) (lt_irrefl u.nextConvId)

/-- Witness for C5 with one concrete prior handle. -/
theorem reset_session_spec_witness :
    (ensure_conversation
        (reset_session
            { api_key := "k", vector_store_id := "v",
              conversation_id := some 0, chat_history := [] }
            { nextConvId := 1, createCalls := 1, deleteCalls := 0 }).1
        { nextConvId := 1, createCalls := 1, deleteCalls := 0 }).1.conversation_id
      = some 1 :=
  (reset_session_spec
      { api_key := "k", vector_store_id := "v",
        conversation_id := some 0, chat_history := [] }
      { nextConvId := 1, createCalls := 1, deleteCalls := 0 }
      [0] (by decide)).2.2.2.1

end RagRpg
